import Mathlib

/-!
Verification of the MindEase conversational session and crisis-escalation
orchestrator, shallowly embedded from the backend sources:
`src/backend/src/services/geminiService.js`,
`src/backend/src/services/socketService.js`, and
`src/backend/src/routes/chat.js`.

JavaScript strings are modelled as Lean `String`; `toLowerCase` is modelled
as ASCII lowering (every phrase the classifier compares against is ASCII or
caseless), machine numbers used for risk levels as `Nat`, and the float
confidence values as `ℚ`.  The external Gemini call is a black box: it is
modelled as an `Option AIReply` parameter, `none` meaning the call threw.
Persistence of a document is modelled by a `Bool` parameter saying whether
`save()` succeeded.
-/

namespace MindEase

/-- ASCII lowering of one character, modelling JavaScript `toLowerCase`
on the character range the sources compare against. -/
def lowerChar (c : Char) : Char :=
  if 65 ≤ c.toNat ∧ c.toNat ≤ 90 then Char.ofNat (c.toNat + 32) else c

/-- Lower-case a string (models `String.prototype.toLowerCase`). -/
def jsToLower (s : String) : String := ⟨s.data.map lowerChar⟩

/-- JavaScript `hay.includes(needle)`: substring containment. -/
def containsSubstr (hay needle : String) : Bool :=
  decide (needle.data <:+: hay.data)

/-- The whitespace characters removed by `trim` that occur in practice. -/
def jsIsWhitespace (c : Char) : Bool :=
  c == ' ' || c == '\t' || c == '\n' || c == '\r'

/-- JavaScript `String.prototype.trim` (also the express-validator `trim`
sanitizer): strip whitespace from both ends. -/
def jsTrim (s : String) : String :=
  ⟨((s.data.dropWhile jsIsWhitespace).reverse.dropWhile jsIsWhitespace).reverse⟩

/-- JavaScript `content.substring(0, 50) + (content.length > 50 ? "..." : "")`
used for session titles. -/
def titleOf (content : String) : String :=
  ⟨content.data.take 50⟩ ++ (if 50 < content.data.length then "..." else "")

/-! ### Crisis Classifier (`geminiService.js`, constructor tables,
`detectCrisis`, `getCrisisSeverity`) -/

/-- `crisisKeywords.en` from the `GeminiService` constructor. -/
def keywordsEn : List String :=
  ["suicide", "kill myself", "end it all", "not worth living", "hopeless",
   "can\x27t go on", "want to die"]

/-- `crisisKeywords.es` from the `GeminiService` constructor. -/
def keywordsEs : List String :=
  ["suicidio", "matarme", "terminar todo", "no vale la pena vivir",
   "sin esperanza", "quiero morir"]

/-- `crisisKeywords.hi` from the `GeminiService` constructor. -/
def keywordsHi : List String :=
  ["आत्महत्या", "खुद को मारना", "सब कुछ खत्म", "जीने का मतलब नहीं", "निराशा",
   "मरना चाहता हूं"]

/-- `this.crisisKeywords[language] || this.crisisKeywords.en`. -/
def crisisKeywords (language : String) : List String :=
  if language = "en" then keywordsEn
  else if language = "es" then keywordsEs
  else if language = "hi" then keywordsHi
  else keywordsEn

/-- The `highRisk` list of `getCrisisSeverity`. -/
def highRiskKeywords : List String :=
  ["suicide", "kill myself", "want to die", "suicidio", "आत्महत्या"]

/-- The `mediumRisk` list of `getCrisisSeverity`. -/
def mediumRiskKeywords : List String :=
  ["hopeless", "can\x27t go on", "end it all", "sin esperanza", "निराशा"]

/-- `getCrisisSeverity(keyword)`: 5 when the keyword contains a high-risk
phrase, 3 for a medium-risk phrase, otherwise 2. -/
def getCrisisSeverity (keyword : String) : Nat :=
  if highRiskKeywords.any
      (fun k => containsSubstr (jsToLower keyword) (jsToLower k)) then 5
  else if mediumRiskKeywords.any
      (fun k => containsSubstr (jsToLower keyword) (jsToLower k)) then 3
  else 2

/-- Expansions of the first implicit-ideation regex (i cant/cannot
take/handle it/this anymore).  Each source pattern is a union of literal
alternatives, so a case-insensitive `test` is containment of one expansion
in the lowered message. -/
def pattern1 : List String :=
  ["i can\x27t take it anymore", "i can\x27t take this anymore",
   "i can\x27t handle it anymore", "i can\x27t handle this anymore",
   "i cannot take it anymore", "i cannot take this anymore",
   "i cannot handle it anymore", "i cannot handle this anymore"]

/-- Expansions of `/everything (is|feels) (hopeless|pointless)/i`. -/
def pattern2 : List String :=
  ["everything is hopeless", "everything is pointless",
   "everything feels hopeless", "everything feels pointless"]

/-- Expansions of `/no one (would|will) (miss|care) (if i|about me)/i`. -/
def pattern3 : List String :=
  ["no one would miss if i", "no one would miss about me",
   "no one would care if i", "no one would care about me",
   "no one will miss if i", "no one will miss about me",
   "no one will care if i", "no one will care about me"]

/-- Expansions of the fourth implicit-ideation regex (im a / such a
burden/failure). -/
def pattern4 : List String :=
  ["i\x27m a burden", "i\x27m a failure",
   "i\x27m such a burden", "i\x27m such a failure"]

/-- The `crisisPatterns` array of `detectCrisis`, each pattern given by its
list of literal expansions. -/
def crisisPatterns : List (List String) :=
  [pattern1, pattern2, pattern3, pattern4]

/-- `pattern.test(message)` for one of the patterns above (case-insensitive
regex of literal alternatives). -/
def patternMatches (message : String) (alts : List String) : Bool :=
  alts.any (fun a => containsSubstr (jsToLower message) a)

/-- `detectCrisis(message, language)`: fold the keyword table accumulating the
maximal matched severity, fold the implicit-ideation patterns at severity 3,
and cap the result at 5. -/
def detectCrisis (message : String) (language : String) : Nat :=
  let keywords := crisisKeywords language
  let messageLower := jsToLower message
  let afterKeywords := keywords.foldl
    (fun acc keyword =>
      if containsSubstr messageLower (jsToLower keyword) then
        max acc (getCrisisSeverity keyword)
      else acc) 0
  let afterPatterns := crisisPatterns.foldl
    (fun acc pat =>
      if patternMatches message pat then max acc 3 else acc) afterKeywords
  min afterPatterns 5

/-- The keywords of the locale table that match the lowered message: the
matching conditions of the keyword loop of `detectCrisis`, reified. -/
def matchedKeywords (message language : String) : List String :=
  (crisisKeywords language).filter
    (fun keyword => containsSubstr (jsToLower message) (jsToLower keyword))

/-- The patterns whose `test` succeeds on the message: the matching
conditions of the pattern loop of `detectCrisis`, reified. -/
def matchedPatterns (message : String) : List (List String) :=
  crisisPatterns.filter (patternMatches message)

/-- The candidate severities of one classification, in the sense of the
specification: one per matched keyword (its table severity) and one per
matched pattern (severity 3). -/
def candidateSeverities (message language : String) : List Nat :=
  (matchedKeywords message language).map getCrisisSeverity
    ++ (matchedPatterns message).map (fun _ => 3)

/-- The risk-level formula as the specification words it:
`min(5, max(all candidate severities, 0))`. -/
def specRiskLevel (message language : String) : Nat :=
  min 5 ((candidateSeverities message language).foldr max 0)

/-! ### AI Reply Collaborator Adapter (`geminiService.js`,
`generateResponse`, `calculateConfidence`, `getFallbackResponse`) -/

/-- Message metadata as built by `generateResponse` / `getFallbackResponse`.
The `keywords` field is `Option` because the fallback metadata object omits
it entirely (it is `undefined` there). -/
structure Metadata where
  sentiment : String
  keywords : Option (List String)
  crisisLevel : Nat
  confidence : ℚ
  language : String
  isFallback : Bool
deriving DecidableEq

/-- The black-box outcome of a successful Gemini round trip: the generated
reply text together with the sentiment/keyword analysis of
`analyzeMessage` (whose own fallbacks always produce these fields). -/
structure AIReply where
  text : String
  analysisSentiment : String
  analysisKeywords : List String
deriving DecidableEq

/-- Case-insensitive `test` of a regex that is a union of literal
alternatives (used by `calculateConfidence`). -/
def testAnyIgnoreCase (s : String) (alts : List String) : Bool :=
  alts.any (fun a => containsSubstr (jsToLower s) a)

/-- `calculateConfidence(response)`: 0.5 base, +0.2 for length over 100,
+0.2 for resource markers, +0.1 for empathy markers, capped at 1. -/
def calculateConfidence (response : String) : ℚ :=
  let hasResources := testAnyIgnoreCase response ["http", "www", "call", "contact"]
  let hasEmpathy := testAnyIgnoreCase response ["understand", "feel", "sorry", "here for you"]
  let c1 : ℚ := 1/2
  let c2 := if 100 < response.data.length then c1 + 1/5 else c1
  let c3 := if hasResources then c2 + 1/5 else c2
  let c4 := if hasEmpathy then c3 + 1/10 else c3
  min c4 1

/-- The `en` fallback string of `getFallbackResponse`. -/
def fallbackEn : String :=
  "I\x27m here to listen and support you. While I\x27m having technical difficulties right now, please know that your feelings are valid. If you\x27re in crisis, please contact a crisis helpline immediately."

/-- The `es` fallback string of `getFallbackResponse`. -/
def fallbackEs : String :=
  "Estoy aquí para escucharte y apoyarte. Aunque estoy teniendo dificultades técnicas ahora, por favor sabe que tus sentimientos son válidos."

/-- The `hi` fallback string of `getFallbackResponse`. -/
def fallbackHi : String :=
  "मैं आपको सुनने और समर्थन करने के लिए यहां हूं। जबकि मुझे अभी तकनीकी कठिनाइयां हो रही हैं, कृपया जानें कि आपकी भावनाएं वैध हैं।"

/-- `fallbacks[language] || fallbacks.en` inside `getFallbackResponse`. -/
def fallbackString (language : String) : String :=
  if language = "en" then fallbackEn
  else if language = "es" then fallbackEs
  else if language = "hi" then fallbackHi
  else fallbackEn

/-- A reply/metadata pair as returned by `generateResponse`. -/
structure GenResult where
  response : String
  metadata : Metadata
deriving DecidableEq

/-- `getFallbackResponse(language)`: the static locale fallback string with
neutral metadata, crisis level 0 and confidence 0.3; no keywords field. -/
def getFallbackResponse (language : String) : GenResult :=
  { response := fallbackString language,
    metadata :=
      { sentiment := "neutral", keywords := none, crisisLevel := 0,
        confidence := 3/10, language, isFallback := true } }

/-- `generateResponse(message, context)` with the external model call made
explicit: `ai = none` models the Gemini call throwing, in which case the
source catch block returns the fallback for `context.language || en`;
on success the reply is trimmed and the metadata carries the classifier
result and computed confidence. -/
def generateResponse (message language : String) (ai : Option AIReply) : GenResult :=
  match ai with
  | none => getFallbackResponse (if language = "" then "en" else language)
  | some r =>
    { response := jsTrim r.text,
      metadata :=
        { sentiment := r.analysisSentiment, keywords := some r.analysisKeywords,
          crisisLevel := detectCrisis message language,
          confidence := calculateConfidence r.text, language, isFallback := false } }

/-! ### Crisis Escalation (`chat.js` `handleCrisisAlert`,
`socketService.js` `handleCrisisDetection`) -/

/-- The `aiAnalysis` subdocument of a `CrisisAlert`. -/
structure AIAnalysis where
  confidence : ℚ
  sentiment : String
  riskFactors : List String
  recommendations : List String
deriving DecidableEq

/-- A `CrisisAlert` document (fields set by the chat paths). -/
structure CrisisAlert where
  userId : String
  triggerMessage : String
  severity : String
  riskLevel : Nat
  detectedKeywords : List String
  aiAnalysis : AIAnalysis
deriving DecidableEq

/-- The alert document built by `handleCrisisAlert` in `chat.js`:
severity is `critical` for crisis level at least 4, else `high`. -/
def mkCrisisAlert (userId message : String) (metadata : Metadata) : CrisisAlert :=
  { userId, triggerMessage := message,
    severity := if 4 ≤ metadata.crisisLevel then "critical" else "high",
    riskLevel := metadata.crisisLevel,
    detectedKeywords := metadata.keywords.getD [],
    aiAnalysis :=
      { confidence := metadata.confidence, sentiment := metadata.sentiment,
        riskFactors := metadata.keywords.getD [],
        recommendations := ["immediate_support", "crisis_hotline", "breathing_exercise"] } }

/-- The alert document built by `handleCrisisDetection` in
`socketService.js` (same severity rule; no recommendations list). -/
def mkCrisisAlertSocket (userId message : String) (metadata : Metadata) : CrisisAlert :=
  { userId, triggerMessage := message,
    severity := if 4 ≤ metadata.crisisLevel then "critical" else "high",
    riskLevel := metadata.crisisLevel,
    detectedKeywords := metadata.keywords.getD [],
    aiAnalysis :=
      { confidence := metadata.confidence, sentiment := metadata.sentiment,
        riskFactors := metadata.keywords.getD [], recommendations := [] } }

/-- `handleCrisisAlert(userId, message, metadata)` acting on the alert
collection; `saveOk = false` models `crisisAlert.save()` rejecting, in which
case the source catch block only logs the error, so the collection is
unchanged and no error propagates to the caller. -/
def handleCrisisAlert (userId message : String) (metadata : Metadata)
    (alerts : List CrisisAlert) (saveOk : Bool) : List CrisisAlert :=
  if saveOk then alerts ++ [mkCrisisAlert userId message metadata] else alerts

/-! ### Session state and the HTTP channel
(`chat.js` `POST /sessions/:sessionId/messages`) -/

/-- One message subdocument of a chat session. -/
structure ChatMessage where
  sender : String
  content : String
  messageType : String
  metadata : Option Metadata
deriving DecidableEq

/-- The rolling `session.context` object. -/
structure SessionContext where
  crisisLevel : Nat
  userMood : Option String
  topics : List String
deriving DecidableEq

/-- A `ChatSession` document (the fields the chat paths touch). -/
structure ChatSession where
  sessionId : String
  userId : String
  language : String
  title : String
  sessionType : String
  isActive : Bool
  messages : List ChatMessage
  context : SessionContext
deriving DecidableEq

/-- `ChatSession.findOne({sessionId, userId, isActive: true})`. -/
def findSession (sessions : List ChatSession) (sessionId userId : String) :
    Option ChatSession :=
  sessions.find? (fun s => s.sessionId == sessionId && s.userId == userId && s.isActive)

/-- `session.save()`: the stored document with this session identifier is
replaced by the mutated one. -/
def updateSession (sessions : List ChatSession) (s : ChatSession) : List ChatSession :=
  sessions.map (fun t => if t.sessionId == s.sessionId then s else t)

/-- The `messageType` validator of the HTTP route:
`optional().isIn([text, voice])`. -/
def validMessageType : Option String → Bool
  | none => true
  | some t => t == "text" || t == "voice"

/-- The response of the HTTP message route. -/
inductive RouteResponse where
  | validationError
  | notFound
  | ok (userMessage botMessage : ChatMessage) (sessionContext : SessionContext)
deriving DecidableEq

/-- Whether a route response is the normal success payload. -/
def RouteResponse.isOk : RouteResponse → Bool
  | .ok .. => true
  | _ => false

/-- The bot message of a success payload, when there is one. -/
def RouteResponse.botMsg : RouteResponse → Option ChatMessage
  | .ok _ bm _ => some bm
  | _ => none

/-- The session context of a success payload, when there is one. -/
def RouteResponse.ctxOf : RouteResponse → Option SessionContext
  | .ok _ _ ctx => some ctx
  | _ => none

/-- Response plus the stores after the operation. -/
structure RouteOutcome where
  response : RouteResponse
  sessions : List ChatSession
  alerts : List CrisisAlert
deriving DecidableEq

/-- `POST /api/chat/sessions/:sessionId/messages`: validate (trimmed content
length 1..5000, permitted message type), load the owned active session,
append the user message, call `generateResponse`, escalate when the returned
crisis level is at least 3 (also marking the session as crisis), append the
bot message, update rolling context and title, save, and answer with both
messages.  `ai` and `alertSaveOk` are the external-effect parameters. -/
def postSessionMessage (userId sessionId content : String)
    (messageType : Option String) (ai : Option AIReply) (alertSaveOk : Bool)
    (sessions : List ChatSession) (alerts : List CrisisAlert) : RouteOutcome :=
  let trimmed := jsTrim content
  if ¬ (1 ≤ trimmed.data.length ∧ trimmed.data.length ≤ 5000
        ∧ validMessageType messageType = true) then
    { response := .validationError, sessions, alerts }
  else
    match findSession sessions sessionId userId with
    | none => { response := .notFound, sessions, alerts }
    | some session =>
      let userMessage : ChatMessage :=
        { sender := "user", content := trimmed,
          messageType := messageType.getD "text", metadata := none }
      let messages1 := session.messages ++ [userMessage]
      let aiResponse := generateResponse trimmed session.language ai
      let md := aiResponse.metadata
      let alerts1 := if 3 ≤ md.crisisLevel then
          handleCrisisAlert userId trimmed md alerts alertSaveOk else alerts
      let ctx1 := if 3 ≤ md.crisisLevel then
          { session.context with crisisLevel := md.crisisLevel } else session.context
      let stype1 := if 3 ≤ md.crisisLevel then "crisis" else session.sessionType
      let botMessage : ChatMessage :=
        { sender := "bot", content := aiResponse.response,
          messageType := "text", metadata := some md }
      let messages2 := messages1 ++ [botMessage]
      let ctx2 := { ctx1 with
                    userMood := some md.sentiment,
                    topics := ctx1.topics ++ md.keywords.getD [] }
      let title2 := if messages2.length ≤ 4 ∧ session.title = "New Conversation"
                    then titleOf trimmed else session.title
      let session2 := { session with
                        messages := messages2, context := ctx2,
                        title := title2, sessionType := stype1 }
      { response := .ok userMessage botMessage ctx2,
        sessions := updateSession sessions session2, alerts := alerts1 }

/-! ### Real-time channel (`socketService.js` `handleSendMessage`,
`handleCrisisDetection`, `getEmergencyContacts`, `getFallbackMessage`) -/

/-- An emergency-contact entry. -/
structure EmergencyContact where
  name : String
  number : String
deriving DecidableEq

/-- The `en` emergency contacts of `getEmergencyContacts`. -/
def contactsEn : List EmergencyContact :=
  [⟨"National Suicide Prevention Lifeline", "988"⟩,
   ⟨"Crisis Text Line", "Text HOME to 741741"⟩]

/-- The `es` emergency contacts of `getEmergencyContacts`. -/
def contactsEs : List EmergencyContact :=
  [⟨"Línea Nacional de Prevención del Suicidio", "988 (presiona 2)"⟩]

/-- The `hi` emergency contacts of `getEmergencyContacts`. -/
def contactsHi : List EmergencyContact :=
  [⟨"आसरा हेल्पलाइन", "+91 9820466726"⟩]

/-- `getEmergencyContacts(language)`: `contacts[language] || contacts.en`. -/
def getEmergencyContacts (language : String) : List EmergencyContact :=
  if language = "en" then contactsEn
  else if language = "es" then contactsEs
  else if language = "hi" then contactsHi
  else contactsEn

/-- The `en` string of the socket-side `getFallbackMessage`. -/
def socketFallbackEn : String :=
  "I\x27m here to support you, though I\x27m having some technical difficulties right now. Your feelings are important and valid. If you\x27re in crisis, please contact emergency services or a crisis hotline immediately."

/-- The `es` string of the socket-side `getFallbackMessage`. -/
def socketFallbackEs : String :=
  "Estoy aquí para apoyarte, aunque tengo algunas dificultades técnicas en este momento. Tus sentimientos son importantes y válidos."

/-- The `hi` string of the socket-side `getFallbackMessage`. -/
def socketFallbackHi : String :=
  "मैं आपका समर्थन करने के लिए यहां हूं, हालांकि मुझे अभी कुछ तकनीकी कठिनाइयां हो रही हैं। आपकी भावनाएं महत्वपूर्ण और वैध हैं।"

/-- `getFallbackMessage(language)`: `messages[language] || messages.en`. -/
def getFallbackMessage (language : String) : String :=
  if language = "en" then socketFallbackEn
  else if language = "es" then socketFallbackEs
  else if language = "hi" then socketFallbackHi
  else socketFallbackEn

/-- Events emitted to clients by the socket handler (payloads restricted to
the fields the claims talk about). -/
inductive SocketEvent where
  | errorEvent (message : String)
  | newMessage (message : ChatMessage)
  | botTyping
  | botTypingStop
  | crisisAlertEvent (alert : CrisisAlert) (emergencyContacts : List EmergencyContact)
  | crisisResources (crisisLevel : Nat)
deriving DecidableEq

/-- Emitted events plus the stores after a socket operation. -/
structure SocketOutcome where
  events : List SocketEvent
  sessions : List ChatSession
  alerts : List CrisisAlert
deriving DecidableEq

/-- The bot-sender messages delivered through `new_message` events, in
order. -/
def botDeliveries (events : List SocketEvent) : List ChatMessage :=
  events.filterMap (fun e =>
    match e with
    | .newMessage m => if m.sender == "bot" then some m else none
    | _ => none)

/-- The `send_message` socket handler.  Validation is only the emptiness
check on `content`; the user message is pushed and broadcast before the AI
call; crisis handling mirrors `handleCrisisDetection` (alert save failures
are caught and logged there); the context update spreads
`aiResponse.metadata.keywords`, which throws a `TypeError` when that field
is absent (the fallback metadata), landing in the catch block that appends
and broadcasts the static socket fallback message without metadata. -/
def handleSendMessage (userId preferredLanguage sessionId : String)
    (content : Option String) (messageType : Option String)
    (ai : Option AIReply) (alertSaveOk : Bool)
    (sessions : List ChatSession) (alerts : List CrisisAlert) : SocketOutcome :=
  match content with
  | none => { events := [.errorEvent "Message content cannot be empty"], sessions, alerts }
  | some rawContent =>
    if rawContent = "" ∨ (jsTrim rawContent).data.length = 0 then
      { events := [.errorEvent "Message content cannot be empty"], sessions, alerts }
    else
      match findSession sessions sessionId userId with
      | none => { events := [.errorEvent "Chat session not found"], sessions, alerts }
      | some session =>
        let userMessage : ChatMessage :=
          { sender := "user", content := jsTrim rawContent,
            messageType := messageType.getD "text", metadata := none }
        let messages1 := session.messages ++ [userMessage]
        let headEvents := [SocketEvent.newMessage userMessage, .botTyping]
        let aiResponse := generateResponse rawContent session.language ai
        let md := aiResponse.metadata
        let alerts1 := if 3 ≤ md.crisisLevel ∧ alertSaveOk then
            alerts ++ [mkCrisisAlertSocket userId rawContent md] else alerts
        let crisisEvents := if 3 ≤ md.crisisLevel ∧ alertSaveOk then
            [SocketEvent.crisisAlertEvent (mkCrisisAlertSocket userId rawContent md)
              (getEmergencyContacts preferredLanguage)] else []
        let ctx1 := if 3 ≤ md.crisisLevel then
            { session.context with crisisLevel := md.crisisLevel } else session.context
        let stype1 := if 3 ≤ md.crisisLevel then "crisis" else session.sessionType
        let botMessage : ChatMessage :=
          { sender := "bot", content := aiResponse.response,
            messageType := "text", metadata := some md }
        let messages2 := messages1 ++ [botMessage]
        match md.keywords with
        | some ks =>
          let ctx2 := { ctx1 with
                        userMood := some md.sentiment,
                        topics := ctx1.topics ++ ks }
          let title2 := if messages2.length ≤ 4 ∧ session.title = "New Conversation"
                        then titleOf rawContent else session.title
          let session2 := { session with
                            messages := messages2, context := ctx2,
                            title := title2, sessionType := stype1 }
          { events := headEvents ++ crisisEvents
              ++ [.botTypingStop, .newMessage botMessage]
              ++ (if 3 ≤ md.crisisLevel then [.crisisResources md.crisisLevel] else []),
            sessions := updateSession sessions session2, alerts := alerts1 }
        | none =>
          let fallbackMessage : ChatMessage :=
            { sender := "bot", content := getFallbackMessage preferredLanguage,
              messageType := "text", metadata := none }
          let messages3 := messages2 ++ [fallbackMessage]
          let session2 := { session with
                            messages := messages3, context := ctx1,
                            sessionType := stype1 }
          { events := headEvents ++ crisisEvents
              ++ [.botTypingStop, .newMessage fallbackMessage],
            sessions := updateSession sessions session2, alerts := alerts1 }

/-! ### Concrete fixtures used by witnesses and counterexamples -/

/-- A fresh English session owned by user `u1`. -/
def sess0 : ChatSession :=
  { sessionId := "s1", userId := "u1", language := "en",
    title := "New Conversation", sessionType := "general", isActive := true,
    messages := [], context := { crisisLevel := 0, userMood := none, topics := [] } }

/-- A concrete successful AI round trip. -/
def reply0 : AIReply :=
  { text := "I hear you", analysisSentiment := "crisis",
    analysisKeywords := ["support"] }

/-- One HTTP delivery of a risk-5 message with a working AI call and
working alert persistence. -/
def crisisRun1 : RouteOutcome :=
  postSessionMessage "u1" "s1" "I want to kill myself" none (some reply0) true [sess0] []

/-- The same message re-submitted against the state left by `crisisRun1`
(a retry of the same triggering message). -/
def crisisRun2 : RouteOutcome :=
  postSessionMessage "u1" "s1" "I want to kill myself" none (some reply0) true
    crisisRun1.sessions crisisRun1.alerts

/-- One HTTP delivery of a risk-3 message (keyword `hopeless`). -/
def hopelessRun : RouteOutcome :=
  postSessionMessage "u1" "s1" "I feel hopeless" none (some reply0) true [sess0] []

/-- A risk-0 message processed after the risk-3 message of `hopelessRun`. -/
def lowAfterHighRun : RouteOutcome :=
  postSessionMessage "u1" "s1" "hello there" none (some reply0) true
    hopelessRun.sessions hopelessRun.alerts

/-- A session like `sess0` whose stored context crisis level is already 3. -/
def sessHigh : ChatSession :=
  { sess0 with context := { crisisLevel := 3, userMood := none, topics := [] } }

/-- A socket delivery during which the AI call fails. -/
def socketAiFailRun : SocketOutcome :=
  handleSendMessage "u1" "en" "s1" (some "I feel sad") none none true [sess0] []

/-- A socket delivery carrying the unpermitted message kind `video`. -/
def socketVideoRun : SocketOutcome :=
  handleSendMessage "u1" "en" "s1" (some "hello friend") (some "video")
    (some reply0) true [sess0] []

/-! ### Helper lemmas about the classifier folds -/

theorem foldr_max_init (l : List Nat) (a : Nat) :
    l.foldr max a = max a (l.foldr max 0) := by
  induction l with
  | nil => simp
  | cons x xs ih => simp [ih, Nat.max_left_comm]

theorem foldl_max_filter {α : Type} (p : α → Bool) (f : α → Nat) (l : List α) :
    ∀ a : Nat,
      l.foldl (fun acc x => if p x then max acc (f x) else acc) a
        = max a (((l.filter p).map f).foldr max 0) := by
  induction l with
  | nil => intro a; simp
  | cons x xs ih =>
    intro a
    by_cases h : p x
    · simp only [List.foldl_cons, List.filter_cons, h, if_true, List.map_cons,
        List.foldr_cons, ih, foldr_max_init (((xs.filter p).map f)) (f x)]
      omega
    · simp only [List.foldl_cons, List.filter_cons, h, if_false, Bool.false_eq_true,
        ite_false, ih]

theorem foldr_max_append (l1 l2 : List Nat) :
    (l1 ++ l2).foldr max 0 = max (l1.foldr max 0) (l2.foldr max 0) := by
  rw [List.foldr_append, foldr_max_init l1 (l2.foldr max 0), Nat.max_comm]

theorem detectCrisis_eq_specRiskLevel (m lang : String) :
    detectCrisis m lang = specRiskLevel m lang := by
  simp only [detectCrisis, specRiskLevel, candidateSeverities, matchedKeywords,
    matchedPatterns]
  rw [foldl_max_filter, foldl_max_filter, foldr_max_append]
  omega

theorem getCrisisSeverity_values (k : String) :
    getCrisisSeverity k = 2 ∨ getCrisisSeverity k = 3 ∨ getCrisisSeverity k = 5 := by
  unfold getCrisisSeverity
  split_ifs <;> simp

theorem foldl_max_values {α : Type} (p : α → Bool) (f : α → Nat)
    (hf : ∀ x, f x = 2 ∨ f x = 3 ∨ f x = 5) (l : List α) :
    ∀ a : Nat, a = 0 ∨ a = 2 ∨ a = 3 ∨ a = 5 →
      (l.foldl (fun acc x => if p x then max acc (f x) else acc) a = 0
        ∨ l.foldl (fun acc x => if p x then max acc (f x) else acc) a = 2
        ∨ l.foldl (fun acc x => if p x then max acc (f x) else acc) a = 3
        ∨ l.foldl (fun acc x => if p x then max acc (f x) else acc) a = 5) := by
  induction l with
  | nil => intro a ha; simpa using ha
  | cons x xs ih =>
    intro a ha
    simp only [List.foldl_cons]
    apply ih
    by_cases h : p x
    · rw [if_pos h]
      have := hf x
      omega
    · rw [if_neg h]
      exact ha

/-! ### Helper lemmas about whitespace-only input -/

theorem all_ws_of_trim_empty {m : String} (h : jsTrim m = "") :
    ∀ c ∈ m.data, jsIsWhitespace c = true := by
  intro c hc
  have hdata : ((m.data.dropWhile jsIsWhitespace).reverse.dropWhile
      jsIsWhitespace).reverse = [] := congrArg String.data h
  rw [List.reverse_eq_nil_iff, List.dropWhile_eq_nil_iff] at hdata
  rcases List.mem_append.mp
      (by rw [List.takeWhile_append_dropWhile (p := jsIsWhitespace)]; exact hc)
    with h1 | h1
  · exact List.mem_takeWhile_imp h1
  · exact hdata c (List.mem_reverse.mpr h1)

theorem lowerChar_of_ws {c : Char} (h : jsIsWhitespace c = true) : lowerChar c = c := by
  simp only [jsIsWhitespace, Bool.or_eq_true, beq_iff_eq] at h
  rcases h with ((rfl | rfl) | rfl) | rfl <;> decide

theorem all_ws_toLower {m : String} (h : ∀ c ∈ m.data, jsIsWhitespace c = true) :
    ∀ c ∈ (jsToLower m).data, jsIsWhitespace c = true := by
  intro c hc
  simp only [jsToLower, List.mem_map] at hc
  obtain ⟨d, hd, rfl⟩ := hc
  rw [lowerChar_of_ws (h d hd)]
  exact h d hd

theorem no_contains_of_ws {hay : String}
    (hws : ∀ c ∈ hay.data, jsIsWhitespace c = true) {needle : String}
    (hn : needle.data.any (fun c => ! jsIsWhitespace c) = true) :
    containsSubstr hay needle = false := by
  by_contra hcon
  rw [Bool.not_eq_false] at hcon
  simp only [containsSubstr, decide_eq_true_eq] at hcon
  obtain ⟨c, hc, hnc⟩ := List.any_eq_true.mp hn
  have := hws c (hcon.subset hc)
  simp [this] at hnc

theorem filter_contains_eq_nil {m : String}
    (hws : ∀ c ∈ (jsToLower m).data, jsIsWhitespace c = true) (ks : List String)
    (hks : ks.all (fun k => (jsToLower k).data.any (fun c => ! jsIsWhitespace c)) = true) :
    ks.filter (fun k => containsSubstr (jsToLower m) (jsToLower k)) = [] := by
  induction ks with
  | nil => rfl
  | cons k ks ih =>
    simp only [List.all_cons, Bool.and_eq_true] at hks
    rw [List.filter_cons, if_neg]
    · exact ih hks.2
    · simp [no_contains_of_ws hws hks.1]

theorem pattern_no_match_of_ws {m : String}
    (hws : ∀ c ∈ (jsToLower m).data, jsIsWhitespace c = true) (alts : List String)
    (halts : alts.all (fun a => a.data.any (fun c => ! jsIsWhitespace c)) = true) :
    patternMatches m alts = false := by
  unfold patternMatches
  rw [List.any_eq_false]
  intro a ha
  have := List.all_eq_true.mp halts a ha
  simp [no_contains_of_ws hws this]

theorem crisisKeywords_cases (lang : String) :
    crisisKeywords lang = keywordsEn ∨ crisisKeywords lang = keywordsEs
      ∨ crisisKeywords lang = keywordsHi := by
  unfold crisisKeywords
  split_ifs <;> simp

theorem matchedKeywords_nil_of_ws {m : String} (lang : String)
    (h : jsTrim m = "") : matchedKeywords m lang = [] := by
  have hws := all_ws_toLower (all_ws_of_trim_empty h)
  unfold matchedKeywords
  rcases crisisKeywords_cases lang with hc | hc | hc <;>
    rw [hc] <;> exact filter_contains_eq_nil hws _ (by decide)

theorem matchedPatterns_nil_of_ws {m : String} (h : jsTrim m = "") :
    matchedPatterns m = [] := by
  have hws := all_ws_toLower (all_ws_of_trim_empty h)
  unfold matchedPatterns crisisPatterns
  rw [List.filter_cons, List.filter_cons, List.filter_cons, List.filter_cons,
    if_neg, if_neg, if_neg, if_neg, List.filter_nil]
  · simp [pattern_no_match_of_ws hws pattern4 (by decide)]
  · simp [pattern_no_match_of_ws hws pattern3 (by decide)]
  · simp [pattern_no_match_of_ws hws pattern2 (by decide)]
  · simp [pattern_no_match_of_ws hws pattern1 (by decide)]

/-! ### Claim theorems -/

/-- C6: for every input text and locale, `detectCrisis` returns
`min(5, max(all candidate severities, 0))`, the candidates being the table
severities of the lower-cased keyword substring matches and severity 3 for
each matched implicit-ideation pattern; and empty or whitespace-only text
yields risk level 0 with no matched keyword or pattern signals. -/
theorem c6_classifier_formula (m lang : String) :
    detectCrisis m lang = specRiskLevel m lang ∧
      (jsTrim m = "" →
        detectCrisis m lang = 0 ∧ matchedKeywords m lang = [] ∧
          matchedPatterns m = []) := by
  refine ⟨detectCrisis_eq_specRiskLevel m lang, fun h => ?_⟩
  have hk := matchedKeywords_nil_of_ws (m := m) lang h
  have hp := matchedPatterns_nil_of_ws (m := m) h
  refine ⟨?_, hk, hp⟩
  rw [detectCrisis_eq_specRiskLevel]
  unfold specRiskLevel candidateSeverities
  rw [hk, hp]
  rfl

/-- Witness for C6 at the whitespace-only input `"   "`. -/
theorem c6_classifier_formula_witness :
    detectCrisis "   " "en" = 0 ∧ matchedKeywords "   " "en" = [] ∧
      matchedPatterns "   " = [] :=
  (c6_classifier_formula "   " "en").2 (by decide)

/-- C9: the classifier only ever returns risk levels 0, 2, 3 or 5 — never
1 or 4 — since keyword severities are 2, 3 or 5 and pattern matches
contribute severity 3. -/
theorem c9_risk_level_range (m lang : String) :
    detectCrisis m lang = 0 ∨ detectCrisis m lang = 2 ∨
      detectCrisis m lang = 3 ∨ detectCrisis m lang = 5 := by
  simp only [detectCrisis]
  have h1 := foldl_max_values
    (fun keyword => containsSubstr (jsToLower m) (jsToLower keyword))
    getCrisisSeverity getCrisisSeverity_values (crisisKeywords lang) 0
    (Or.inl rfl)
  have h2 := foldl_max_values (patternMatches m) (fun _ => 3)
    (fun _ => Or.inr (Or.inl rfl)) crisisPatterns _ h1
  beta_reduce at h1 h2
  omega

/-- C10: any locale outside `{en, es, hi}` falls back to English behaviour:
the English keyword table (hence English classification), the English
fallback reply on both channels, and the English emergency contacts. -/
theorem c10_unsupported_locale_falls_back (lang : String)
    (h1 : lang ≠ "en") (h2 : lang ≠ "es") (h3 : lang ≠ "hi") :
    crisisKeywords lang = crisisKeywords "en" ∧
      (∀ m, detectCrisis m lang = detectCrisis m "en") ∧
      (getFallbackResponse lang).response = (getFallbackResponse "en").response ∧
      getEmergencyContacts lang = getEmergencyContacts "en" ∧
      getFallbackMessage lang = getFallbackMessage "en" := by
  have hkw : crisisKeywords lang = crisisKeywords "en" := by
    unfold crisisKeywords
    simp [h1, h2, h3]
  refine ⟨hkw, fun m => ?_, ?_, ?_, ?_⟩
  · unfold detectCrisis
    rw [hkw]
  · unfold getFallbackResponse fallbackString
    simp [h1, h2, h3]
  · unfold getEmergencyContacts
    simp [h1, h2, h3]
  · unfold getFallbackMessage
    simp [h1, h2, h3]

/-- Witness for C10 at the unsupported locale `"fr"`. -/
theorem c10_unsupported_locale_falls_back_witness :
    crisisKeywords "fr" = crisisKeywords "en" ∧
      detectCrisis "i feel hopeless" "fr" = detectCrisis "i feel hopeless" "en" ∧
      getEmergencyContacts "fr" = getEmergencyContacts "en" :=
  ⟨(c10_unsupported_locale_falls_back "fr" (by decide) (by decide) (by decide)).1,
   (c10_unsupported_locale_falls_back "fr" (by decide) (by decide) (by decide)).2.1
     "i feel hopeless",
   (c10_unsupported_locale_falls_back "fr" (by decide) (by decide) (by decide)).2.2.2.1⟩

/-- C1 (code bug): on the message `I want to kill myself` the classifier
returns risk 5, but when the AI call fails the catch block of
`generateResponse` returns the fallback metadata with `crisisLevel 0`,
discarding the classifier result; the route therefore creates no
`CrisisAlert` and answers normally, so AI adapter failure does prevent
escalation of a classified-crisis message. -/
theorem c1_ai_failure_blocks_escalation :
    detectCrisis "I want to kill myself" "en" = 5 ∧
      (generateResponse (jsTrim "I want to kill myself") "en" none).metadata.crisisLevel = 0 ∧
      (postSessionMessage "u1" "s1" "I want to kill myself" none none true
        [sess0] []).alerts = [] ∧
      (postSessionMessage "u1" "s1" "I want to kill myself" none none true
        [sess0] []).response.isOk = true :=
  ⟨by decide, rfl, rfl, rfl⟩

/-- C2 counterexample: a risk-5 message whose `CrisisAlert.save()` fails
still yields a normal success response with no alert persisted — the save
failure is caught inside `handleCrisisAlert` and swallowed. -/
theorem c2_cex_alert_save_failure_not_reported :
    (generateResponse (jsTrim "I want to kill myself") "en" (some reply0)).metadata.crisisLevel = 5 ∧
      (postSessionMessage "u1" "s1" "I want to kill myself" none (some reply0) false
        [sess0] []).response.isOk = true ∧
      (postSessionMessage "u1" "s1" "I want to kill myself" none (some reply0) false
        [sess0] []).alerts = [] :=
  ⟨by decide, rfl, rfl⟩

/-- C2 amended: a failure while persisting the `CrisisAlert` is caught and
logged inside `handleCrisisAlert`; the operation continues and the caller
receives a normal reply with the alert store unchanged. -/
theorem c2_amended_alert_save_failure_swallowed
    (userId sessionId content : String) (messageType : Option String)
    (ai : Option AIReply) (sessions : List ChatSession)
    (alerts : List CrisisAlert) (session : ChatSession)
    (hlen : 1 ≤ (jsTrim content).data.length ∧ (jsTrim content).data.length ≤ 5000)
    (hmt : validMessageType messageType = true)
    (hfind : findSession sessions sessionId userId = some session) :
    (postSessionMessage userId sessionId content messageType ai false sessions
        alerts).alerts = alerts ∧
      (postSessionMessage userId sessionId content messageType ai false sessions
        alerts).response.isOk = true := by
  have hv : ¬¬(1 ≤ (jsTrim content).data.length ∧ (jsTrim content).data.length ≤ 5000
      ∧ validMessageType messageType = true) := not_not_intro ⟨hlen.1, hlen.2, hmt⟩
  simp only [postSessionMessage, if_neg hv, hfind, handleCrisisAlert,
    Bool.false_eq_true, if_false, ite_self, RouteResponse.isOk, and_self]

/-- Witness for the amended C2 at a concrete risk-5 request. -/
theorem c2_amended_alert_save_failure_swallowed_witness :
    (postSessionMessage "u1" "s1" "I want to kill myself" none (some reply0) false
        [sess0] []).alerts = [] ∧
      (postSessionMessage "u1" "s1" "I want to kill myself" none (some reply0) false
        [sess0] []).response.isOk = true :=
  c2_amended_alert_save_failure_swallowed "u1" "s1" "I want to kill myself" none
    (some reply0) [sess0] [] sess0 (by decide) (by decide) (by decide)

/-- C3 counterexample: re-submitting the same risk-5 triggering message
creates a second alert with the same trigger text — there is no
idempotence keying on message identity. -/
theorem c3_cex_retry_duplicates_alert :
    crisisRun2.alerts.map (fun a => a.triggerMessage)
      = ["I want to kill myself", "I want to kill myself"] := by
  rfl

/-- C3 amended: on a validated message in a found session, an alert-append
is attempted exactly when the returned metadata crisis level is at least 3,
and (when the save succeeds) appends one new alert unconditionally — each
retry of the same triggering message adds another alert. -/
theorem c3_amended_alert_iff_no_dedup
    (userId sessionId content : String) (messageType : Option String)
    (ai : Option AIReply) (alertSaveOk : Bool) (sessions : List ChatSession)
    (alerts : List CrisisAlert) (session : ChatSession)
    (hlen : 1 ≤ (jsTrim content).data.length ∧ (jsTrim content).data.length ≤ 5000)
    (hmt : validMessageType messageType = true)
    (hfind : findSession sessions sessionId userId = some session) :
    (postSessionMessage userId sessionId content messageType ai alertSaveOk sessions
        alerts).alerts
      = if 3 ≤ (generateResponse (jsTrim content) session.language ai).metadata.crisisLevel
            ∧ alertSaveOk = true then
          alerts ++ [mkCrisisAlert userId (jsTrim content)
            (generateResponse (jsTrim content) session.language ai).metadata]
        else alerts := by
  have hv : ¬¬(1 ≤ (jsTrim content).data.length ∧ (jsTrim content).data.length ≤ 5000
      ∧ validMessageType messageType = true) := not_not_intro ⟨hlen.1, hlen.2, hmt⟩
  simp only [postSessionMessage, if_neg hv, hfind, handleCrisisAlert]
  by_cases hc : 3 ≤ (generateResponse (jsTrim content) session.language ai).metadata.crisisLevel
  · by_cases hs : alertSaveOk = true
    · simp [hc, hs]
    · simp [hc, hs]
  · simp [hc]

/-- Witness for the amended C3 at a concrete risk-5 request. -/
theorem c3_amended_alert_iff_no_dedup_witness :
    (postSessionMessage "u1" "s1" "I want to kill myself" none (some reply0) true
        [sess0] []).alerts
      = if 3 ≤ (generateResponse (jsTrim "I want to kill myself") "en"
              (some reply0)).metadata.crisisLevel ∧ true = true then
          [] ++ [mkCrisisAlert "u1" (jsTrim "I want to kill myself")
            (generateResponse (jsTrim "I want to kill myself") "en"
              (some reply0)).metadata]
        else [] :=
  c3_amended_alert_iff_no_dedup "u1" "s1" "I want to kill myself" none
    (some reply0) true [sess0] [] sess0 (by decide) (by decide) (by decide)

/-- C4 counterexample: the alert created for a message classified at risk
level 3 has severity `high`, not the `medium` the claimed mapping
requires (the source uses `crisisLevel >= 4 ? critical : high`). -/
theorem c4_cex_risk3_gives_high :
    hopelessRun.alerts.map (fun a => (a.riskLevel, a.severity)) = [(3, "high")] := by
  rfl

/-- C4 amended: both channels derive severity deterministically from the
metadata crisis level by `critical` when it is at least 4 and `high`
otherwise; since alerts are only created at crisis level ≥ 3, the values
`low` and `medium` are never assigned on the chat paths. -/
theorem c4_amended_severity_mapping (userId msg : String) (md : Metadata) :
    (mkCrisisAlert userId msg md).severity
        = (if 4 ≤ md.crisisLevel then "critical" else "high") ∧
      (mkCrisisAlertSocket userId msg md).severity
        = (if 4 ≤ md.crisisLevel then "critical" else "high") :=
  ⟨rfl, rfl⟩

/-- C5 counterexample: after a risk-3 message sets the stored context
crisis level to 3, a following message classified at risk 0 leaves it at 3,
so the stored level does not equal the most recent classification. -/
theorem c5_cex_risk_not_lowered :
    detectCrisis "hello there" "en" = 0 ∧
      lowAfterHighRun.sessions.map (fun s => s.context.crisisLevel) = [3] :=
  ⟨by decide, rfl⟩

/-- C5 amended: on a validated message in a found session, the stored (and
returned) `context.crisisLevel` becomes the new classification only when
that classification is at least 3; otherwise the previous stored value is
kept, so lower-risk messages never lower it. -/
theorem c5_amended_risk_updates_only_upward
    (userId sessionId content : String) (messageType : Option String)
    (ai : Option AIReply) (alertSaveOk : Bool) (sessions : List ChatSession)
    (alerts : List CrisisAlert) (session : ChatSession)
    (hlen : 1 ≤ (jsTrim content).data.length ∧ (jsTrim content).data.length ≤ 5000)
    (hmt : validMessageType messageType = true)
    (hfind : findSession sessions sessionId userId = some session) :
    ((postSessionMessage userId sessionId content messageType ai alertSaveOk sessions
        alerts).response.ctxOf.map (fun ctx => ctx.crisisLevel))
      = some (if 3 ≤ (generateResponse (jsTrim content) session.language ai).metadata.crisisLevel
          then (generateResponse (jsTrim content) session.language ai).metadata.crisisLevel
          else session.context.crisisLevel) ∧
      ∀ s' ∈ (postSessionMessage userId sessionId content messageType ai alertSaveOk
          sessions alerts).sessions, s'.sessionId = session.sessionId →
        s'.context.crisisLevel
          = (if 3 ≤ (generateResponse (jsTrim content) session.language ai).metadata.crisisLevel
              then (generateResponse (jsTrim content) session.language ai).metadata.crisisLevel
              else session.context.crisisLevel) := by
  have hv : ¬¬(1 ≤ (jsTrim content).data.length ∧ (jsTrim content).data.length ≤ 5000
      ∧ validMessageType messageType = true) := not_not_intro ⟨hlen.1, hlen.2, hmt⟩
  constructor
  · simp only [postSessionMessage, if_neg hv, hfind, RouteResponse.ctxOf, Option.map_some]
    by_cases hc : 3 ≤ (generateResponse (jsTrim content) session.language ai).metadata.crisisLevel
    · simp [hc]
    · simp [hc]
  · intro s' hs' hid
    simp only [postSessionMessage, if_neg hv, hfind, updateSession, List.mem_map] at hs'
    obtain ⟨t, _, ht⟩ := hs'
    by_cases hteq : (t.sessionId == session.sessionId) = true
    · rw [← ht]
      simp only [hteq, if_true]
      by_cases hc : 3 ≤ (generateResponse (jsTrim content) session.language ai).metadata.crisisLevel
      · simp [hc]
      · simp [hc]
    · rw [← ht] at hid
      simp only [hteq, if_false, Bool.false_eq_true] at hid
      exact absurd (by simp [hid]) hteq

/-- Witness for the amended C5 at a concrete risk-0 request after a risk-3
message. -/
theorem c5_amended_risk_updates_only_upward_witness :
    ((postSessionMessage "u1" "s1" "hello there" none (some reply0) true
        [sessHigh] []).response.ctxOf.map (fun ctx => ctx.crisisLevel))
      = some (if 3 ≤ (generateResponse (jsTrim "hello there") "en"
              (some reply0)).metadata.crisisLevel
          then (generateResponse (jsTrim "hello there") "en"
              (some reply0)).metadata.crisisLevel
          else sessHigh.context.crisisLevel) :=
  (c5_amended_risk_updates_only_upward "u1" "s1" "hello there" none (some reply0)
    true [sessHigh] [] sessHigh (by decide) (by decide) (by decide)).1

/-- C7 counterexample: on the real-time channel an AI failure ends in the
catch block (the fallback metadata has no keywords array, so the context
update throws), and the bot message actually delivered is the socket
fallback string with no metadata at all — in particular its metadata does
not carry `sentiment = neutral` or any confidence. -/
theorem c7_cex_socket_fallback_without_metadata :
    botDeliveries socketAiFailRun.events
      = [{ sender := "bot", content := getFallbackMessage "en",
           messageType := "text", metadata := none }] := by
  rfl

/-- C7 amended: when the AI call fails, `generateResponse` substitutes the
fixed locale fallback string with neutral sentiment and confidence 0.3
(below 0.5); the HTTP channel returns exactly that reply and metadata as
the bot message, while the real-time channel delivers the socket fallback
string with no metadata. -/
theorem c7_amended_fallback_behaviour (m lang : String)
    (userId preferredLanguage sessionId content : String)
    (messageType : Option String) (alertSaveOk : Bool)
    (sessions : List ChatSession) (alerts : List CrisisAlert) (session : ChatSession)
    (hlen : 1 ≤ (jsTrim content).data.length ∧ (jsTrim content).data.length ≤ 5000)
    (hmt : validMessageType messageType = true)
    (hfind : findSession sessions sessionId userId = some session) :
    ((generateResponse m lang none).response
        = fallbackString (if lang = "" then "en" else lang) ∧
      (generateResponse m lang none).metadata.sentiment = "neutral" ∧
      (generateResponse m lang none).metadata.confidence < 1/2) ∧
      (postSessionMessage userId sessionId content messageType none alertSaveOk
          sessions alerts).response.botMsg
        = some { sender := "bot",
                 content := (generateResponse (jsTrim content) session.language none).response,
                 messageType := "text",
                 metadata := some (generateResponse (jsTrim content)
                   session.language none).metadata } ∧
      botDeliveries (handleSendMessage userId preferredLanguage sessionId
          (some content) messageType none alertSaveOk sessions alerts).events
        = [{ sender := "bot", content := getFallbackMessage preferredLanguage,
             messageType := "text", metadata := none }] := by
  have hv : ¬¬(1 ≤ (jsTrim content).data.length ∧ (jsTrim content).data.length ≤ 5000
      ∧ validMessageType messageType = true) := not_not_intro ⟨hlen.1, hlen.2, hmt⟩
  have hne : ¬(content = "" ∨ (jsTrim content).data.length = 0) := by
    rintro (rfl | h)
    · exact absurd hlen.1 (by decide)
    · omega
  refine ⟨⟨rfl, rfl, by norm_num [generateResponse, getFallbackResponse]⟩, ?_, ?_⟩
  · simp only [postSessionMessage, if_neg hv, hfind, RouteResponse.botMsg]
  · simp only [handleSendMessage]
    rw [if_neg hne, hfind]
    simp [generateResponse, getFallbackResponse, botDeliveries]

/-- Witness for the amended C7 at a concrete request. -/
theorem c7_amended_fallback_behaviour_witness :
    (generateResponse "I feel sad" "en" none).metadata.sentiment = "neutral" ∧
      botDeliveries (handleSendMessage "u1" "en" "s1" (some "I feel sad") none none
          true [sess0] []).events
        = [{ sender := "bot", content := getFallbackMessage "en",
             messageType := "text", metadata := none }] :=
  ⟨(c7_amended_fallback_behaviour "I feel sad" "en" "u1" "en" "s1" "I feel sad"
      none true [sess0] [] sess0 (by decide) (by decide) (by decide)).1.2.1,
   (c7_amended_fallback_behaviour "I feel sad" "en" "u1" "en" "s1" "I feel sad"
      none true [sess0] [] sess0 (by decide) (by decide) (by decide)).2.2⟩

/-- C8 counterexample: the real-time channel accepts the unpermitted
message kind `video` (which the HTTP validator rejects) and appends it to
the session — the input is not rejected before a state change. -/
theorem c8_cex_socket_accepts_unpermitted_kind :
    validMessageType (some "video") = false ∧
      socketVideoRun.sessions.map
          (fun s => s.messages.map (fun msg => msg.messageType))
        = [["video", "text"]] :=
  ⟨rfl, rfl⟩

/-- C8 amended: the HTTP channel rejects empty, over-length and
unpermitted-kind input with a validation error before any state change;
the real-time channel validates only emptiness — missing or
whitespace-only content is rejected before any state change, but length
and kind are not checked there. -/
theorem c8_amended_validation_per_channel
    (userId preferredLanguage sessionId content raw : String)
    (messageType : Option String) (ai : Option AIReply) (alertSaveOk : Bool)
    (sessions : List ChatSession) (alerts : List CrisisAlert)
    (hbad : ¬(1 ≤ (jsTrim content).data.length ∧ (jsTrim content).data.length ≤ 5000
      ∧ validMessageType messageType = true))
    (hraw : (jsTrim raw).data.length = 0) :
    postSessionMessage userId sessionId content messageType ai alertSaveOk sessions
        alerts
      = { response := .validationError, sessions, alerts } ∧
      handleSendMessage userId preferredLanguage sessionId none messageType ai
          alertSaveOk sessions alerts
        = { events := [.errorEvent "Message content cannot be empty"], sessions, alerts } ∧
      handleSendMessage userId preferredLanguage sessionId (some raw) messageType ai
          alertSaveOk sessions alerts
        = { events := [.errorEvent "Message content cannot be empty"], sessions, alerts } := by
  refine ⟨?_, rfl, ?_⟩
  · simp only [postSessionMessage, if_pos hbad]
  · simp only [handleSendMessage, if_pos (Or.inr hraw)]

/-- Witness for the amended C8 at concrete bad inputs. -/
theorem c8_amended_validation_per_channel_witness :
    postSessionMessage "u1" "s1" "" none none true [sess0] []
      = { response := .validationError, sessions := [sess0], alerts := [] } ∧
      handleSendMessage "u1" "en" "s1" (some "   ") none none true [sess0] []
        = { events := [.errorEvent "Message content cannot be empty"],
            sessions := [sess0], alerts := [] } :=
  ⟨(c8_amended_validation_per_channel "u1" "en" "s1" "" "   " none none true
      [sess0] [] (by decide) (by decide)).1,
   (c8_amended_validation_per_channel "u1" "en" "s1" "" "   " none none true
      [sess0] [] (by decide) (by decide)).2.2⟩

end MindEase
